import Mathlib

/-!
Shallow embedding of the Book Hive library application (src/app.py).

The database is a record of lists, one per sqlite table; each handler from
app.py that the claims mention becomes a pure function from the database
(plus its form/session inputs) to an outcome and the database after commit.
A sqlite transaction that raises rolls back, so a failing operation returns
the original database. SELECT ... fetchone becomes List.find?, UPDATE
becomes List.map, DELETE becomes List.filter, INSERT appends a row whose
AUTOINCREMENT id is one past the largest id in the table. REAL columns are
modelled as rationals; timestamps are opaque strings supplied by the caller.
-/

namespace BookHive

/-- A row of the users table (src/app.py, init_db). -/
structure UserRow where
  id : Nat
  username : String
  email : String
  password : String
  first_name : String
  last_name : String
  is_admin : Bool
  is_librarian : Bool
  is_approved : Bool
deriving Repr, DecidableEq

/-- A row of the books table. -/
structure BookRow where
  id : Nat
  title : String
  author : String
  category : String
  publisher : String
  price : ℚ
  book_condition : String
  book_status : String
  is_available : Bool
deriving Repr, DecidableEq

/-- A row of the orders table. -/
structure OrderRow where
  id : Nat
  user_id : Nat
  order_date : String
  total_amount : ℚ
  status : String
deriving Repr, DecidableEq

/-- A row of the order_items table. -/
structure OrderItemRow where
  id : Nat
  order_id : Nat
  book_id : Nat
  quantity : Nat
  price_at_purchase : ℚ
deriving Repr, DecidableEq

/-- A row of the payments table. -/
structure PaymentRow where
  id : Nat
  order_id : Nat
  user_id : Nat
  payment_date : String
  amount : ℚ
  payment_type : String
  status : String
deriving Repr, DecidableEq

/-- A row of the borrowed_books table. -/
structure BorrowedBookRow where
  id : Nat
  user_id : Nat
  book_id : Nat
  borrow_date : String
  return_date : Option String
  status : String
deriving Repr, DecidableEq

/-- A row of the borrow_requests table. -/
structure BorrowRequestRow where
  id : Nat
  user_id : Nat
  book_id : Nat
  request_date : String
  status : String
deriving Repr, DecidableEq

/-- The whole database file: one list per table. -/
structure DB where
  users : List UserRow
  books : List BookRow
  orders : List OrderRow
  order_items : List OrderItemRow
  payments : List PaymentRow
  borrowed_books : List BorrowedBookRow
  borrow_requests : List BorrowRequestRow
deriving Repr, DecidableEq

/-- AUTOINCREMENT: the next primary key, one past the largest id in use. -/
def freshId (ids : List Nat) : Nat := ids.foldr max 0 + 1

/-- The status test "book_status IN (Available, On Shelves)" used throughout app.py. -/
def isAvailableStatus (s : String) : Bool := s == "Available" || s == "On Shelves"

/-- Outcome of the login handler. -/
inductive LoginResult
  | notApproved
  | invalidCredentials
  | success (user_id : Nat) (username : String) (is_admin is_librarian : Bool)
deriving Repr, DecidableEq

/-- The login handler (src/app.py lines 326-355): looks a user up by username or
email, refuses an unapproved account before comparing passwords, and otherwise
compares the stored hash. checkHash stands for werkzeug check_password_hash.
Read only: it writes no table. -/
def login (checkHash : String → String → Bool) (identifier password : String)
    (db : DB) : LoginResult :=
  match db.users.find? (fun u => u.username == identifier || u.email == identifier) with
  | none => .invalidCredentials
  | some u =>
    if !u.is_approved then .notApproved
    else if checkHash u.password password then
      .success u.id u.username u.is_admin u.is_librarian
    else .invalidCredentials

/-- Outcome of the register handler. -/
inductive RegisterResult
  | validationFailed
  | passwordMismatch
  | duplicateUser
  | registered
deriving Repr, DecidableEq

/-- The register handler (src/app.py lines 290-323). hashFn stands for werkzeug
generate_password_hash; the UNIQUE constraints on username and email raise
sqlite3.IntegrityError, modelled by the duplicate scan. -/
def register (hashFn : String → String)
    (username email password confirm_password first_name last_name : String)
    (db : DB) : RegisterResult × DB :=
  if username == "" || email == "" || password == "" || confirm_password == "" then
    (.validationFailed, db)
  else if password != confirm_password then
    (.passwordMismatch, db)
  else if db.users.any (fun u => u.username == username || u.email == email) then
    (.duplicateUser, db)
  else
    (.registered, { db with users := db.users ++
      [⟨freshId (db.users.map (·.id)), username, email, hashFn password,
        first_name, last_name, false, false, false⟩] })

/-- Outcome of the add_book handler. -/
inductive AddBookResult
  | validationFailed
  | invalidPrice
  | negativePrice
  | added
deriving Repr, DecidableEq

/-- The add_book handler (src/app.py lines 399-439). The price form field is
modelled as the result of float(price): none is a ValueError; the empty price
string, which fails the all([...]) check in the code, also parses to none, so
both paths insert nothing. is_available is derived from book_status membership
in the available set before insertion. -/
def add_book (title author category publisher : String) (price : Option ℚ)
    (book_condition book_status : String) (db : DB) : AddBookResult × DB :=
  let is_available := isAvailableStatus book_status
  if title == "" || author == "" || category == "" || publisher == ""
      || book_condition == "" || book_status == "" then
    (.validationFailed, db)
  else
    match price with
    | none => (.invalidPrice, db)
    | some p =>
      if p < 0 then (.negativePrice, db)
      else
        (.added, { db with books := db.books ++
          [⟨freshId (db.books.map (·.id)), title, author, category, publisher, p,
            book_condition, book_status, is_available⟩] })

/-- Outcome of the edit_book handler. -/
inductive EditBookResult
  | notFound
  | validationFailed
  | invalidPrice
  | negativePrice
  | updated
deriving Repr, DecidableEq

/-- The edit_book handler (src/app.py lines 442-494): same validation as
add_book, then overwrites every mutable column of the row, including the
status-derived is_available. -/
def edit_book (book_id : Nat) (title author category publisher : String)
    (price : Option ℚ) (book_condition book_status : String) (db : DB) :
    EditBookResult × DB :=
  match db.books.find? (fun b => b.id == book_id) with
  | none => (.notFound, db)
  | some _ =>
    let is_available := isAvailableStatus book_status
    if title == "" || author == "" || category == "" || publisher == ""
        || book_condition == "" || book_status == "" then
      (.validationFailed, db)
    else
      match price with
      | none => (.invalidPrice, db)
      | some p =>
        if p < 0 then (.negativePrice, db)
        else
          (.updated, { db with books := db.books.map (fun b =>
            if b.id == book_id then
              { b with title := title, author := author, category := category,
                       publisher := publisher, price := p,
                       book_condition := book_condition, book_status := book_status,
                       is_available := is_available }
            else b) })

/-- The delete_book handler (src/app.py lines 497-514): cascades the delete
over borrowed_books, borrow_requests and order_items, then the book row. -/
def delete_book (book_id : Nat) (db : DB) : DB :=
  { db with
    borrowed_books := db.borrowed_books.filter (fun r => r.book_id != book_id),
    borrow_requests := db.borrow_requests.filter (fun r => r.book_id != book_id),
    order_items := db.order_items.filter (fun r => r.book_id != book_id),
    books := db.books.filter (fun b => b.id != book_id) }

/-- Outcome of the borrow_book handler. -/
inductive BorrowResult
  | notAvailable
  | duplicateRequest
  | alreadyBorrowed
  | submitted
deriving Repr, DecidableEq

/-- The borrow_book handler (src/app.py lines 517-574), the submitBorrowRequest
operation: the book must match id, price = 0 and an available status in one
query; then a Pending request for the pair blocks with the duplicate message, an
active Borrowed record blocks with the already-borrowed message, and otherwise a
Pending request row is inserted. The book row itself is never written. -/
def borrow_book (session_user_id book_id : Nat) (request_date : String) (db : DB) :
    BorrowResult × DB :=
  match db.books.find? (fun b =>
      b.id == book_id && b.price == 0 && isAvailableStatus b.book_status) with
  | none => (.notAvailable, db)
  | some _ =>
    let existing_request := db.borrow_requests.find? (fun r =>
      r.user_id == session_user_id && r.book_id == book_id && r.status == "Pending")
    let existing_borrow := db.borrowed_books.find? (fun r =>
      r.user_id == session_user_id && r.book_id == book_id && r.status == "Borrowed")
    if existing_request.isSome then (.duplicateRequest, db)
    else if existing_borrow.isSome then (.alreadyBorrowed, db)
    else
      (.submitted, { db with borrow_requests := db.borrow_requests ++
        [⟨freshId (db.borrow_requests.map (·.id)), session_user_id, book_id,
          request_date, "Pending"⟩] })

/-- Outcome of the purchase_book handler. -/
inductive PurchaseResult
  | notAvailable
  | purchased
deriving Repr, DecidableEq

/-- The purchase_book handler (src/app.py lines 577-621): the book must match
id, price > 0 and an available status in one query; then, in one transaction, a
Completed order is inserted with the price as total, an order_items row
snapshots price_at_purchase, and the book becomes Sold and unavailable. -/
def purchase_book (session_user_id book_id : Nat) (order_date : String) (db : DB) :
    PurchaseResult × DB :=
  match db.books.find? (fun b =>
      b.id == book_id && decide (0 < b.price) && isAvailableStatus b.book_status) with
  | none => (.notAvailable, db)
  | some book =>
    let order_id := freshId (db.orders.map (·.id))
    (.purchased, { db with
      orders := db.orders ++
        [⟨order_id, session_user_id, order_date, book.price, "Completed"⟩],
      order_items := db.order_items ++
        [⟨freshId (db.order_items.map (·.id)), order_id, book.id, 1, book.price⟩],
      books := db.books.map (fun b =>
        if b.id == book_id then
          { b with book_status := "Sold", is_available := false }
        else b) })

/-- Outcome of the return_book handler. -/
inductive ReturnResult
  | notFound
  | returned
deriving Repr, DecidableEq

/-- The return_book handler (src/app.py lines 624-661): the borrow record must
match id, the session user (ownership) and status Borrowed; then the record
becomes Returned with a return date and the book goes back On Shelves,
available. -/
def return_book (session_user_id borrow_id : Nat) (return_date : String) (db : DB) :
    ReturnResult × DB :=
  match db.borrowed_books.find? (fun r =>
      r.id == borrow_id && r.user_id == session_user_id && r.status == "Borrowed") with
  | none => (.notFound, db)
  | some borrow_record =>
    (.returned, { db with
      borrowed_books := db.borrowed_books.map (fun r =>
        if r.id == borrow_id then
          { r with status := "Returned", return_date := some return_date }
        else r),
      books := db.books.map (fun b =>
        if b.id == borrow_record.book_id then
          { b with book_status := "On Shelves", is_available := true }
        else b) })

/-- Outcome of the donate_book handler. -/
inductive DonateResult
  | validationFailed
  | donated
deriving Repr, DecidableEq

/-- The donate_book handler (src/app.py lines 664-695): the caller supplies only
title, author, category and publisher; condition Second Hand, status On Shelves,
price 0.0 and is_available 1 are fixed by the handler itself. -/
def donate_book (title author category publisher : String) (db : DB) :
    DonateResult × DB :=
  let book_condition := "Second Hand"
  let book_status := "On Shelves"
  let price : ℚ := 0
  if title == "" || author == "" || category == "" || publisher == "" then
    (.validationFailed, db)
  else
    (.donated, { db with books := db.books ++
      [⟨freshId (db.books.map (·.id)), title, author, category, publisher, price,
        book_condition, book_status, true⟩] })

/-- The approve_user handler (src/app.py lines 806-821). -/
def approve_user (user_id : Nat) (db : DB) : DB :=
  { db with users := db.users.map (fun u =>
      if u.id == user_id then { u with is_approved := true } else u) }

/-- Outcome of the delete_user handler. -/
inductive DeleteUserResult
  | selfDelete
  | protectedAccount
  | deleted
deriving Repr, DecidableEq

/-- The cascading part of delete_user: the rows of the target user across
borrowed_books, payments, borrow_requests, the order_items of the orders the
user owns, the orders and finally the user row. -/
def delete_user_cascade (user_id : Nat) (db : DB) : DB :=
  let order_ids := (db.orders.filter (fun o => o.user_id == user_id)).map (·.id)
  { db with
    borrowed_books := db.borrowed_books.filter (fun r => r.user_id != user_id),
    payments := db.payments.filter (fun p => p.user_id != user_id),
    borrow_requests := db.borrow_requests.filter (fun r => r.user_id != user_id),
    order_items := db.order_items.filter (fun oi => !(order_ids.contains oi.order_id)),
    orders := db.orders.filter (fun o => o.user_id != user_id),
    users := db.users.filter (fun u => u.id != user_id) }

/-- The delete_user handler (src/app.py lines 824-857). The self-delete guard
(id equal to the session user) runs first; only then is the target row fetched
and its is_admin / is_librarian flags checked; both guards return with the
database untouched. The books table is never written. -/
def delete_user (session_user_id user_id : Nat) (db : DB) : DeleteUserResult × DB :=
  if user_id == session_user_id then (.selfDelete, db)
  else
    match db.users.find? (fun u => u.id == user_id) with
    | some target_user =>
      if target_user.is_admin || target_user.is_librarian then
        (.protectedAccount, db)
      else (.deleted, delete_user_cascade user_id db)
    | none => (.deleted, delete_user_cascade user_id db)

/-- Outcome of the approve_borrow_request handler. -/
inductive ApproveResult
  | notPending
  | bookUnavailable (title : String)
  | crashed
  | approved (title : String)
deriving Repr, DecidableEq

/-- The approve_borrow_request handler (src/app.py lines 880-933). failAt
injects a storage failure into the k-th write of the success path (0: the
UPDATE of books, 1: the INSERT into borrowed_books, 2: the UPDATE of
borrow_requests); a failing write raises, the except branch rolls the
transaction back, and the original database is returned. When the book row of
the request is absent entirely, the unavailable branch first builds its flash
message by subscripting book_info, which is None, so a TypeError is raised
before the Rejected update runs: that path also rolls back, leaving the request
Pending. -/
def approve_borrow_request (failAt : Option (Fin 3)) (borrow_date : String)
    (request_id : Nat) (db : DB) : ApproveResult × DB :=
  match db.borrow_requests.find? (fun r => r.id == request_id && r.status == "Pending") with
  | none => (.notPending, db)
  | some request_record =>
    let user_id := request_record.user_id
    let book_id := request_record.book_id
    match db.books.find? (fun b => b.id == book_id) with
    | none => (.crashed, db)
    | some book_info =>
      if !(isAvailableStatus book_info.book_status) then
        (.bookUnavailable book_info.title,
          { db with borrow_requests := db.borrow_requests.map (fun r =>
              if r.id == request_id then { r with status := "Rejected" } else r) })
      else if failAt == some 0 then (.crashed, db)
      else
        let db1 : DB := { db with books := db.books.map (fun b =>
          if b.id == book_id then
            { b with book_status := "Borrowed", is_available := false }
          else b) }
        if failAt == some 1 then (.crashed, db)
        else
          let db2 : DB := { db1 with borrowed_books := db1.borrowed_books ++
            [⟨freshId (db1.borrowed_books.map (·.id)), user_id, book_id,
              borrow_date, none, "Borrowed"⟩] }
          if failAt == some 2 then (.crashed, db)
          else
            (.approved book_info.title,
              { db2 with borrow_requests := db2.borrow_requests.map (fun r =>
                  if r.id == request_id then { r with status := "Approved" } else r) })

/-- Outcome of the reject_borrow_request handler. -/
inductive RejectResult
  | notPending
  | rejected
deriving Repr, DecidableEq

/-- The reject_borrow_request handler (src/app.py lines 936-964): a Pending
request becomes Rejected; no book state changes. -/
def reject_borrow_request (request_id : Nat) (db : DB) : RejectResult × DB :=
  match db.borrow_requests.find? (fun r => r.id == request_id && r.status == "Pending") with
  | none => (.notPending, db)
  | some _ =>
    (.rejected, { db with borrow_requests := db.borrow_requests.map (fun r =>
        if r.id == request_id then { r with status := "Rejected" } else r) })

/-- The books consistency invariant: is_available mirrors membership of
book_status in the set the handlers test, Available or On Shelves. -/
def BooksConsistent (db : DB) : Prop :=
  ∀ b ∈ db.books, b.is_available = isAvailableStatus b.book_status

instance (db : DB) : Decidable (BooksConsistent db) :=
  List.decidableBAll _ db.books

/-- One call of any state-changing handler of app.py, with arbitrary form and
session inputs. -/
inductive Step : DB → DB → Prop
  | register_user (hashFn : String → String)
      (username email password confirm first last : String) (db : DB) :
      Step db (register hashFn username email password confirm first last db).2
  | add (title author category publisher : String) (price : Option ℚ)
      (book_condition book_status : String) (db : DB) :
      Step db (add_book title author category publisher price book_condition book_status db).2
  | edit (book_id : Nat) (title author category publisher : String) (price : Option ℚ)
      (book_condition book_status : String) (db : DB) :
      Step db (edit_book book_id title author category publisher price book_condition book_status db).2
  | deleteBook (book_id : Nat) (db : DB) : Step db (delete_book book_id db)
  | borrow (session_user_id book_id : Nat) (request_date : String) (db : DB) :
      Step db (borrow_book session_user_id book_id request_date db).2
  | purchase (session_user_id book_id : Nat) (order_date : String) (db : DB) :
      Step db (purchase_book session_user_id book_id order_date db).2
  | ret (session_user_id borrow_id : Nat) (return_date : String) (db : DB) :
      Step db (return_book session_user_id borrow_id return_date db).2
  | donate (title author category publisher : String) (db : DB) :
      Step db (donate_book title author category publisher db).2
  | approveUser (user_id : Nat) (db : DB) : Step db (approve_user user_id db)
  | deleteUser (session_user_id user_id : Nat) (db : DB) :
      Step db (delete_user session_user_id user_id db).2
  | approveRequest (failAt : Option (Fin 3)) (borrow_date : String)
      (request_id : Nat) (db : DB) :
      Step db (approve_borrow_request failAt borrow_date request_id db).2
  | rejectRequest (request_id : Nat) (db : DB) :
      Step db (reject_borrow_request request_id db).2

/-- The databases reachable from init by handler calls. -/
inductive Reachable (init : DB) : DB → Prop
  | refl : Reachable init init
  | step {db db' : DB} : Reachable init db → Step db db' → Reachable init db'

/-- Example database for the approval claim: a regular user (id 2), one
borrow-only Available book (id 10) and a Pending request (id 7) for it. -/
def c1db : DB :=
  ⟨[⟨2, "u", "u@x", "h", "U", "S", false, false, true⟩],
   [⟨10, "B", "A", "C", "P", 0, "New", "Available", true⟩],
   [], [], [], [],
   [⟨7, 2, 10, "d0", "Pending"⟩]⟩

/-- Example database for the unavailable-book approval claim: the book of the
Pending request (id 7) has meanwhile been Sold. -/
def c2db : DB :=
  ⟨[⟨2, "u", "u@x", "h", "U", "S", false, false, true⟩],
   [⟨10, "B", "A", "C", "P", 0, "New", "Sold", false⟩],
   [], [], [], [],
   [⟨7, 2, 10, "d0", "Pending"⟩]⟩

/-- Example database for the invariant claim: one consistent book. -/
def c3db : DB :=
  ⟨[], [⟨1, "B", "A", "C", "P", 0, "New", "Available", true⟩],
   [], [], [], [], []⟩

/-- Example database for the delete_user claims: the admin account, id 1. -/
def c4db : DB :=
  ⟨[⟨1, "admin", "admin@bookhive.com", "h", "Admin", "User", true, false, true⟩],
   [], [], [], [], [], []⟩

/-- Example database for the duplicate-request counterexample: user 2 has a
Pending request for borrow-only book 10, which user 3 is currently borrowing,
so its status is Borrowed. -/
def c5db : DB :=
  ⟨[⟨2, "u", "u@x", "h", "U", "S", false, false, true⟩],
   [⟨10, "B", "A", "C", "P", 0, "New", "Borrowed", false⟩],
   [], [], [],
   [⟨1, 3, 10, "d0", none, "Borrowed"⟩],
   [⟨1, 2, 10, "d0", "Pending"⟩]⟩

/-- Example database for the amended duplicate-request claim: the book is
still Available and user 2 already has a Pending request for it. -/
def c5db2 : DB :=
  ⟨[⟨2, "u", "u@x", "h", "U", "S", false, false, true⟩],
   [⟨10, "B", "A", "C", "P", 0, "New", "Available", true⟩],
   [], [], [], [],
   [⟨1, 2, 10, "d0", "Pending"⟩]⟩

/-- Example database for the purchase claim: one borrow-only (price 0) book. -/
def c6db : DB :=
  ⟨[⟨2, "u", "u@x", "h", "U", "S", false, false, true⟩],
   [⟨10, "B", "A", "C", "P", 0, "New", "Available", true⟩],
   [], [], [], [], []⟩

/-- Example database for the delete_user frame claim: admin id 1, regular user
id 2 who is borrowing book 10, currently Borrowed and unavailable. -/
def c7db : DB :=
  ⟨[⟨1, "admin", "a@x", "h", "Admin", "User", true, false, true⟩,
    ⟨2, "u", "u@x", "h", "U", "S", false, false, true⟩],
   [⟨10, "B", "A", "C", "P", 0, "New", "Borrowed", false⟩],
   [], [], [],
   [⟨1, 2, 10, "d0", none, "Borrowed"⟩],
   []⟩

/-- Example database for the delete_user frame counterexample: both user 2
and user 3 hold an active Borrowed record on book 10 (reachable by editing the
Borrowed book back to Available and approving a second request); user 2 is
non-protected. -/
def c7db2 : DB :=
  ⟨[⟨1, "admin", "a@x", "h", "Admin", "User", true, false, true⟩,
    ⟨2, "u", "u@x", "h", "U", "S", false, false, true⟩,
    ⟨3, "v", "v@x", "h", "V", "S", false, false, true⟩],
   [⟨10, "B", "A", "C", "P", 0, "New", "Borrowed", false⟩],
   [], [], [],
   [⟨1, 2, 10, "d0", none, "Borrowed"⟩, ⟨2, 3, 10, "d1", none, "Borrowed"⟩],
   []⟩

/-- Example database for the login claim: one unapproved user. -/
def c8db : DB :=
  ⟨[⟨5, "bob", "bob@x", "h", "B", "B", false, false, false⟩],
   [], [], [], [], [], []⟩

/-- Example database for the missing-book approval claim: a Pending request
(id 7) whose book id 99 matches no books row. -/
def c9db : DB :=
  ⟨[⟨2, "u", "u@x", "h", "U", "S", false, false, true⟩],
   [], [], [], [], [],
   [⟨7, 2, 99, "d0", "Pending"⟩]⟩

/-- Example database for the donation claim: empty tables. -/
def c10db : DB := ⟨[], [], [], [], [], [], []⟩

/-- Appending a consistent row preserves consistency of a book list. -/
theorem consistent_append {l : List BookRow}
    (h : ∀ b ∈ l, b.is_available = isAvailableStatus b.book_status)
    {row : BookRow} (hrow : row.is_available = isAvailableStatus row.book_status) :
    ∀ b ∈ l ++ [row], b.is_available = isAvailableStatus b.book_status := by
  intro b hb
  rcases List.mem_append.mp hb with h1 | h1
  · exact h b h1
  · rw [List.mem_singleton.mp h1]
    exact hrow

/-- Mapping a row transformer that preserves consistency preserves consistency
of a book list. -/
theorem consistent_map {l : List BookRow} {f : BookRow → BookRow}
    (h : ∀ b ∈ l, b.is_available = isAvailableStatus b.book_status)
    (hf : ∀ b, b.is_available = isAvailableStatus b.book_status →
      (f b).is_available = isAvailableStatus (f b).book_status) :
    ∀ b ∈ l.map f, b.is_available = isAvailableStatus b.book_status := by
  intro b hb
  rcases List.mem_map.mp hb with ⟨a, ha, rfl⟩
  exact hf a (h a ha)

/-- Filtering preserves consistency of a book list. -/
theorem consistent_filter {l : List BookRow} {p : BookRow → Bool}
    (h : ∀ b ∈ l, b.is_available = isAvailableStatus b.book_status) :
    ∀ b ∈ l.filter p, b.is_available = isAvailableStatus b.book_status :=
  fun b hb => h b (List.mem_of_mem_filter hb)

/-- Updating one book to a new status whose availability flag matches the
status preserves consistency of a book list. -/
theorem consistent_set_status {l : List BookRow} (bid : Nat) (st : String) (av : Bool)
    (hst : av = isAvailableStatus st)
    (h : ∀ b ∈ l, b.is_available = isAvailableStatus b.book_status) :
    ∀ b ∈ l.map (fun b => if b.id == bid then
        { b with book_status := st, is_available := av } else b),
      b.is_available = isAvailableStatus b.book_status := by
  intro b hb
  rcases List.mem_map.mp hb with ⟨a, ha, rfl⟩
  by_cases hid : (a.id == bid) = true
  · simp [hid, hst]
  · rw [if_neg hid]
    exact h a ha

/-- register writes only the users table. -/
theorem register_books_eq (hashFn : String → String)
    (username email password confirm first last : String) (db : DB) :
    (register hashFn username email password confirm first last db).2.books = db.books := by
  unfold register
  repeat' split
  all_goals rfl

/-- borrow_book writes only the borrow_requests table. -/
theorem borrow_book_books_eq (session_user_id book_id : Nat) (request_date : String)
    (db : DB) : (borrow_book session_user_id book_id request_date db).2.books = db.books := by
  unfold borrow_book
  try dsimp only
  repeat' split
  all_goals rfl

/-- approve_user writes only the users table. -/
theorem approve_user_books_eq (user_id : Nat) (db : DB) :
    (approve_user user_id db).books = db.books := rfl

/-- delete_user never writes the books table, on any path. -/
theorem delete_user_books_eq (session_user_id user_id : Nat) (db : DB) :
    (delete_user session_user_id user_id db).2.books = db.books := by
  unfold delete_user delete_user_cascade
  repeat' split
  all_goals rfl

/-- reject_borrow_request writes only the borrow_requests table. -/
theorem reject_borrow_request_books_eq (request_id : Nat) (db : DB) :
    (reject_borrow_request request_id db).2.books = db.books := by
  unfold reject_borrow_request
  repeat' split
  all_goals rfl

/-- add_book preserves the consistency invariant: the inserted row derives
is_available from book_status. -/
theorem add_book_consistent (title author category publisher : String)
    (price : Option ℚ) (book_condition book_status : String) (db : DB)
    (h : BooksConsistent db) :
    BooksConsistent (add_book title author category publisher price book_condition book_status db).2 := by
  unfold add_book BooksConsistent
  try dsimp only
  repeat' split
  all_goals first
    | exact h
    | exact consistent_append h rfl

/-- edit_book preserves the consistency invariant: the overwritten row derives
is_available from the new book_status. -/
theorem edit_book_consistent (book_id : Nat) (title author category publisher : String)
    (price : Option ℚ) (book_condition book_status : String) (db : DB)
    (h : BooksConsistent db) :
    BooksConsistent (edit_book book_id title author category publisher price book_condition book_status db).2 := by
  unfold edit_book BooksConsistent
  try dsimp only
  repeat' split
  all_goals first
    | exact h
    | exact consistent_map h (fun b hb => by
        by_cases hid : (b.id == book_id) = true
        · simp [hid]
        · rw [if_neg hid]
          exact hb)

/-- delete_book preserves the consistency invariant. -/
theorem delete_book_consistent (book_id : Nat) (db : DB) (h : BooksConsistent db) :
    BooksConsistent (delete_book book_id db) :=
  consistent_filter h

/-- purchase_book preserves the consistency invariant: the Sold row gets
is_available false, and Sold is not an available status. -/
theorem purchase_book_consistent (session_user_id book_id : Nat) (order_date : String)
    (db : DB) (h : BooksConsistent db) :
    BooksConsistent (purchase_book session_user_id book_id order_date db).2 := by
  unfold purchase_book BooksConsistent
  try dsimp only
  repeat' split
  all_goals first
    | exact h
    | exact consistent_set_status _ "Sold" false (by decide) h

/-- return_book preserves the consistency invariant: the returned book goes
On Shelves with is_available true. -/
theorem return_book_consistent (session_user_id borrow_id : Nat) (return_date : String)
    (db : DB) (h : BooksConsistent db) :
    BooksConsistent (return_book session_user_id borrow_id return_date db).2 := by
  unfold return_book BooksConsistent
  try dsimp only
  repeat' split
  all_goals first
    | exact h
    | exact consistent_set_status _ "On Shelves" true (by decide) h

/-- donate_book preserves the consistency invariant: the donated row is
On Shelves with is_available true. -/
theorem donate_book_consistent (title author category publisher : String) (db : DB)
    (h : BooksConsistent db) :
    BooksConsistent (donate_book title author category publisher db).2 := by
  unfold donate_book BooksConsistent
  try dsimp only
  repeat' split
  all_goals first
    | exact h
    | exact consistent_append h rfl

/-- approve_borrow_request preserves the consistency invariant: the approved
book becomes Borrowed with is_available false, and no other path writes
books. -/
theorem approve_borrow_request_consistent (failAt : Option (Fin 3))
    (borrow_date : String) (request_id : Nat) (db : DB) (h : BooksConsistent db) :
    BooksConsistent (approve_borrow_request failAt borrow_date request_id db).2 := by
  unfold approve_borrow_request BooksConsistent
  try dsimp only
  repeat' split
  all_goals first
    | exact h
    | exact consistent_set_status _ "Borrowed" false (by decide) h

/-- Every handler call preserves the books consistency invariant. -/
theorem step_preserves_consistent {db db' : DB} (s : Step db db')
    (h : BooksConsistent db) : BooksConsistent db' := by
  cases s with
  | register_user hashFn username email password confirm first last db =>
      intro b hb
      rw [register_books_eq] at hb
      exact h b hb
  | add title author category publisher price book_condition book_status db =>
      exact add_book_consistent _ _ _ _ _ _ _ _ h
  | edit book_id title author category publisher price book_condition book_status db =>
      exact edit_book_consistent _ _ _ _ _ _ _ _ _ h
  | deleteBook book_id db => exact delete_book_consistent _ _ h
  | borrow session_user_id book_id request_date db =>
      intro b hb
      rw [borrow_book_books_eq] at hb
      exact h b hb
  | purchase session_user_id book_id order_date db =>
      exact purchase_book_consistent _ _ _ _ h
  | ret session_user_id borrow_id return_date db =>
      exact return_book_consistent _ _ _ _ h
  | donate title author category publisher db =>
      exact donate_book_consistent _ _ _ _ _ h
  | approveUser user_id db =>
      intro b hb
      rw [approve_user_books_eq] at hb
      exact h b hb
  | deleteUser session_user_id user_id db =>
      intro b hb
      rw [delete_user_books_eq] at hb
      exact h b hb
  | approveRequest failAt borrow_date request_id db =>
      exact approve_borrow_request_consistent _ _ _ _ h
  | rejectRequest request_id db =>
      intro b hb
      rw [reject_borrow_request_books_eq] at hb
      exact h b hb

/-- C3: every operation that writes a books row leaves is_available equal to
the predicate book_status in {Available, On Shelves}: in every database
reachable by handler calls from a consistent initial one, every book has
is_available true exactly when its status is Available or On Shelves. -/
theorem reachable_books_consistent (init db : DB) (h0 : BooksConsistent init)
    (h : Reachable init db) : BooksConsistent db := by
  induction h with
  | refl => exact h0
  | step _ s ih => exact step_preserves_consistent s ih

/-- C3 witness: the invariant holds of the concrete database reached from c3db
by a donation step. -/
theorem reachable_books_consistent_witness :
    BooksConsistent (donate_book "T" "A" "C" "P" c3db).2 :=
  reachable_books_consistent c3db (donate_book "T" "A" "C" "P" c3db).2 (by decide)
    (Reachable.step Reachable.refl (Step.donate "T" "A" "C" "P" c3db))

/-- C10: every book created by a successful donation has price 0, condition
Second Hand, status On Shelves and is_available true, independent of the
caller-supplied fields (only title, author, category and publisher are taken
from the form), so a donated book enters the borrow-only catalog. -/
theorem donate_book_fixed_fields (title author category publisher : String) (db : DB)
    (ht : title ≠ "") (ha : author ≠ "") (hc : category ≠ "") (hp : publisher ≠ "") :
    donate_book title author category publisher db =
      (DonateResult.donated,
        { db with books := db.books ++
          [⟨freshId (db.books.map (·.id)), title, author, category, publisher, 0,
            "Second Hand", "On Shelves", true⟩] }) := by
  simp [donate_book, ht, ha, hc, hp]

/-- C10 witness: donating into the empty database. -/
theorem donate_book_fixed_fields_witness :
    donate_book "T" "A" "C" "P" c10db =
      (DonateResult.donated,
        { c10db with books := c10db.books ++
          [⟨freshId (c10db.books.map (·.id)), "T", "A", "C", "P", 0,
            "Second Hand", "On Shelves", true⟩] }) :=
  donate_book_fixed_fields "T" "A" "C" "P" c10db (by decide) (by decide) (by decide)
    (by decide)

/-- C6: purchasing a book whose price is 0 always fails with the
not-available outcome and leaves the whole database — in particular orders,
order_items and the book row — unchanged. -/
theorem purchase_book_price_zero (session_user_id book_id : Nat) (order_date : String)
    (db : DB) (book : BookRow) (hmem : book ∈ db.books) (hid : book.id = book_id)
    (hprice : book.price = 0) (hnodup : (db.books.map (·.id)).Nodup) :
    purchase_book session_user_id book_id order_date db =
      (PurchaseResult.notAvailable, db) := by
  have hfind : db.books.find? (fun b =>
      b.id == book_id && decide (0 < b.price) && isAvailableStatus b.book_status) = none := by
    rw [List.find?_eq_none]
    intro x hx
    by_cases h : x.id = book_id
    · have hxb : x = book :=
        List.inj_on_of_nodup_map hnodup hx hmem (by rw [h, hid])
      subst hxb
      simp [hprice]
    · simp [h]
  simp [purchase_book, hfind]

/-- C6 witness: purchasing the price-0 book of c6db fails and writes
nothing. -/
theorem purchase_book_price_zero_witness :
    purchase_book 2 10 "t" c6db = (PurchaseResult.notAvailable, c6db) :=
  purchase_book_price_zero 2 10 "t" c6db
    ⟨10, "B", "A", "C", "P", 0, "New", "Available", true⟩
    (by decide) rfl (by decide) (by decide)

/-- C8: login refuses an unapproved account with the awaiting-approval outcome
before comparing passwords, for every hash-checking function; for an approved
account it answers invalid credentials exactly when the hash check fails, and
a missing account also answers invalid credentials. -/
theorem login_approval_before_password (checkHash : String → String → Bool)
    (identifier password : String) (db : DB) :
    (db.users.find? (fun u => u.username == identifier || u.email == identifier) = none →
      login checkHash identifier password db = LoginResult.invalidCredentials) ∧
    (∀ usr, db.users.find? (fun u => u.username == identifier || u.email == identifier) =
        some usr → usr.is_approved = false →
      login checkHash identifier password db = LoginResult.notApproved) ∧
    (∀ usr, db.users.find? (fun u => u.username == identifier || u.email == identifier) =
        some usr → usr.is_approved = true →
      (login checkHash identifier password db = LoginResult.invalidCredentials ↔
        checkHash usr.password password = false)) := by
  refine ⟨fun h => by simp [login, h], fun usr hu ha => by simp [login, hu, ha],
    fun usr hu ha => ?_⟩
  by_cases hchk : checkHash usr.password password
  · simp [login, hu, ha, hchk]
  · simp [login, hu, ha, hchk]

/-- C8 witness: the unapproved user bob is refused with the awaiting-approval
outcome even though the hash check would accept any password. -/
theorem login_approval_before_password_witness :
    login (fun _ _ => true) "bob" "pw" c8db = LoginResult.notApproved :=
  (login_approval_before_password (fun _ _ => true) "bob" "pw" c8db).2.1
    ⟨5, "bob", "bob@x", "h", "B", "B", false, false, false⟩ (by decide) rfl

/-- C4 counterexample: when the acting admin is also the target (id 1, an
is_admin account), delete_user answers with the self-delete outcome, not the
protected-account one: the self-delete guard runs before the role check, so
the claim that the protected-account failure also covers the self-target case
is false (nothing is deleted either way). -/
theorem delete_user_self_admin_not_protected :
    (∃ u ∈ c4db.users, u.id = 1 ∧ u.is_admin = true) ∧
    delete_user 1 1 c4db = (DeleteUserResult.selfDelete, c4db) ∧
    (delete_user 1 1 c4db).1 ≠ DeleteUserResult.protectedAccount := by
  decide

/-- C4 amended: for every target whose is_admin or is_librarian flag is set,
delete_user fails and deletes nothing; the failure is the protected-account
outcome whenever the acting admin is not the target, and the self-delete
outcome when the acting admin targets its own id. -/
theorem delete_user_protected_guard (session_user_id user_id : Nat) (db : DB)
    (target : UserRow)
    (hfind : db.users.find? (fun u => u.id == user_id) = some target)
    (hprot : target.is_admin = true ∨ target.is_librarian = true) :
    delete_user session_user_id user_id db =
      (if user_id = session_user_id then DeleteUserResult.selfDelete
       else DeleteUserResult.protectedAccount, db) := by
  by_cases h : user_id = session_user_id
  · simp [delete_user, h]
  · have hflag : (target.is_admin || target.is_librarian) = true := by
      rcases hprot with h1 | h1 <;> simp [h1]
    simp [delete_user, h, hfind, hflag]

/-- C4 amended witness: a different admin (id 2) deleting the admin account
id 1 gets the protected-account outcome and the database is unchanged. -/
theorem delete_user_protected_guard_witness :
    delete_user 2 1 c4db = (DeleteUserResult.protectedAccount, c4db) := by
  have h := delete_user_protected_guard 2 1 c4db
    ⟨1, "admin", "admin@bookhive.com", "h", "Admin", "User", true, false, true⟩
    (by decide) (Or.inl rfl)
  simpa using h

/-- C5 counterexample: user 2 has a Pending request for borrow-only book 10
(price 0), but the book is currently Borrowed by user 3, so the second
submission answers the not-available outcome instead of the duplicate-request
one (still inserting nothing): the claim as stated, quantifying over every
borrow-only book, is false. -/
theorem borrow_book_pending_not_duplicate :
    (∃ b ∈ c5db.books, b.id = 10 ∧ b.price = 0) ∧
    (∃ r ∈ c5db.borrow_requests,
      r.user_id = 2 ∧ r.book_id = 10 ∧ r.status = "Pending") ∧
    borrow_book 2 10 "d1" c5db = (BorrowResult.notAvailable, c5db) ∧
    (borrow_book 2 10 "d1" c5db).1 ≠ BorrowResult.duplicateRequest := by
  decide

/-- C5 amended: when the borrow query still finds the book (price 0 and status
Available or On Shelves) and a Pending request for the pair exists, the second
submission fails with the duplicate-request outcome and the whole database is
unchanged. -/
theorem borrow_book_duplicate_pending (session_user_id book_id : Nat)
    (request_date : String) (db : DB) (book : BookRow)
    (hfind : db.books.find? (fun b =>
      b.id == book_id && b.price == 0 && isAvailableStatus b.book_status) = some book)
    (hreq : (db.borrow_requests.find? (fun r =>
      r.user_id == session_user_id && r.book_id == book_id &&
        r.status == "Pending")).isSome) :
    borrow_book session_user_id book_id request_date db =
      (BorrowResult.duplicateRequest, db) := by
  simp [borrow_book, hfind, hreq]

/-- C5 amended witness: in c5db2 the book is still Available and user 2
already has a Pending request, so the second submission is refused as a
duplicate with nothing written. -/
theorem borrow_book_duplicate_pending_witness :
    borrow_book 2 10 "d1" c5db2 = (BorrowResult.duplicateRequest, c5db2) :=
  borrow_book_duplicate_pending 2 10 "d1" c5db2
    ⟨10, "B", "A", "C", "P", 0, "New", "Available", true⟩ (by decide) (by decide)

/-- C2: approving a Pending request whose book exists but is not Available or
On Shelves answers the book-unavailable outcome and sets the request to
Rejected — never Approved — while books, borrowed_books and every other table
keep their rows. -/
theorem approve_borrow_request_unavailable (failAt : Option (Fin 3))
    (borrow_date : String) (request_id : Nat) (db : DB)
    (req : BorrowRequestRow) (book : BookRow)
    (hreq : db.borrow_requests.find?
      (fun r => r.id == request_id && r.status == "Pending") = some req)
    (hbook : db.books.find? (fun b => b.id == req.book_id) = some book)
    (hunav : isAvailableStatus book.book_status = false) :
    approve_borrow_request failAt borrow_date request_id db =
      (ApproveResult.bookUnavailable book.title,
        { db with borrow_requests := db.borrow_requests.map (fun r =>
            if r.id == request_id then { r with status := "Rejected" } else r) }) ∧
    (approve_borrow_request failAt borrow_date request_id db).2.books = db.books ∧
    (approve_borrow_request failAt borrow_date request_id db).2.borrowed_books =
      db.borrowed_books ∧
    (∀ r ∈ (approve_borrow_request failAt borrow_date request_id db).2.borrow_requests,
      r.id = request_id → r.status = "Rejected" ∧ r.status ≠ "Approved") := by
  have hmain : approve_borrow_request failAt borrow_date request_id db =
      (ApproveResult.bookUnavailable book.title,
        { db with borrow_requests := db.borrow_requests.map (fun r =>
            if r.id == request_id then { r with status := "Rejected" } else r) }) := by
    simp [approve_borrow_request, hreq, hbook, hunav]
  refine ⟨hmain, by rw [hmain], by rw [hmain], ?_⟩
  rw [hmain]
  intro r hr hrid
  rcases List.mem_map.mp hr with ⟨a, ha, rfl⟩
  by_cases hid : (a.id == request_id) = true
  · rw [if_pos hid]
    exact ⟨rfl, show "Rejected" ≠ "Approved" by decide⟩
  · rw [if_neg hid] at hrid ⊢
    exact absurd (beq_iff_eq.mpr hrid) hid

/-- C2 witness: in c2db the requested book was meanwhile Sold, so approval of
request 7 rejects it with the unavailable outcome. -/
theorem approve_borrow_request_unavailable_witness :
    approve_borrow_request none "t" 7 c2db =
      (ApproveResult.bookUnavailable "B",
        { c2db with borrow_requests := c2db.borrow_requests.map (fun r =>
            if r.id == 7 then { r with status := "Rejected" } else r) }) :=
  (approve_borrow_request_unavailable none "t" 7 c2db ⟨7, 2, 10, "d0", "Pending"⟩
    ⟨10, "B", "A", "C", "P", 0, "New", "Sold", false⟩ (by decide) (by decide)
    (by decide)).1

/-- C9: approving a Pending request whose book id matches no books row does
not reject the request: the unavailable branch dereferences the absent row
first, the raised error rolls the transaction back, and the whole database —
the still-Pending request included — is unchanged. -/
theorem approve_borrow_request_missing_book (failAt : Option (Fin 3))
    (borrow_date : String) (request_id : Nat) (db : DB) (req : BorrowRequestRow)
    (hreq : db.borrow_requests.find?
      (fun r => r.id == request_id && r.status == "Pending") = some req)
    (hbook : db.books.find? (fun b => b.id == req.book_id) = none) :
    approve_borrow_request failAt borrow_date request_id db =
      (ApproveResult.crashed, db) ∧
    req ∈ (approve_borrow_request failAt borrow_date request_id db).2.borrow_requests ∧
    req.status = "Pending" := by
  have hmain : approve_borrow_request failAt borrow_date request_id db =
      (ApproveResult.crashed, db) := by
    simp [approve_borrow_request, hreq, hbook]
  have hpred := List.find?_some hreq
  simp only [Bool.and_eq_true, beq_iff_eq] at hpred
  refine ⟨hmain, ?_, hpred.2⟩
  rw [hmain]
  exact List.mem_of_find?_eq_some hreq

/-- C9 witness: request 7 of c9db points at book 99, which does not exist;
approving it crashes and leaves the database unchanged. -/
theorem approve_borrow_request_missing_book_witness :
    approve_borrow_request none "t" 7 c9db = (ApproveResult.crashed, c9db) :=
  (approve_borrow_request_missing_book none "t" 7 c9db ⟨7, 2, 99, "d0", "Pending"⟩
    (by decide) (by decide)).1

/-- C7 counterexample: in c7db2 both user 2 and user 3 hold an active
Borrowed record on book 10; user 2 is non-protected, so deleting them
succeeds, yet a Borrowed record referencing book 10 — belonging to user 3 —
remains, so the clause that no Borrowed record references the book after the
deletion is false as stated. -/
theorem delete_user_remaining_borrow_counterexample :
    (∃ u ∈ c7db2.users, u.id = 2 ∧ u.is_admin = false ∧ u.is_librarian = false) ∧
    (∃ r ∈ c7db2.borrowed_books,
      r.user_id = 2 ∧ r.book_id = 10 ∧ r.status = "Borrowed") ∧
    (∃ b ∈ c7db2.books,
      b.id = 10 ∧ b.book_status = "Borrowed" ∧ b.is_available = false) ∧
    (delete_user 1 2 c7db2).1 = DeleteUserResult.deleted ∧
    (∃ r ∈ (delete_user 1 2 c7db2).2.borrowed_books,
      r.book_id = 10 ∧ r.status = "Borrowed") := by
  decide

/-- C7 amended: delete_user never writes the books table; deleting a
non-protected user who is borrowing a book removes that user's Borrowed
record — the book row keeps status Borrowed and is_available false — and
leaves no Borrowed record of the deleted user referencing it (Borrowed
records of other users for the same book may remain). -/
theorem delete_user_books_frame_amended (session_user_id user_id book_id : Nat)
    (db : DB) (target : UserRow) (record : BorrowedBookRow) (book : BookRow)
    (hne : user_id ≠ session_user_id)
    (hfind : db.users.find? (fun u => u.id == user_id) = some target)
    (hadmin : target.is_admin = false) (hlib : target.is_librarian = false)
    (hrec : record ∈ db.borrowed_books) (hrecu : record.user_id = user_id)
    (hrecs : record.status = "Borrowed")
    (hbook : book ∈ db.books) (hbid : book.id = book_id)
    (hbst : book.book_status = "Borrowed") (hbav : book.is_available = false) :
    (delete_user session_user_id user_id db).1 = DeleteUserResult.deleted ∧
    (delete_user session_user_id user_id db).2.books = db.books ∧
    book ∈ (delete_user session_user_id user_id db).2.books ∧
    book.book_status = "Borrowed" ∧ book.is_available = false ∧
    record ∉ (delete_user session_user_id user_id db).2.borrowed_books ∧
    (∀ r ∈ (delete_user session_user_id user_id db).2.borrowed_books,
      r.user_id ≠ user_id) := by
  have hbne : (user_id == session_user_id) = false := by simp [hne]
  have hmain : delete_user session_user_id user_id db =
      (DeleteUserResult.deleted, delete_user_cascade user_id db) := by
    simp [delete_user, hbne, hfind, hadmin, hlib]
  have hbb : (delete_user_cascade user_id db).borrowed_books =
      db.borrowed_books.filter (fun r => r.user_id != user_id) := rfl
  refine ⟨by rw [hmain], delete_user_books_eq _ _ _, ?_, hbst, hbav, ?_, ?_⟩
  · rw [hmain]
    exact hbook
  · rw [hmain]
    intro hmem
    rw [hbb] at hmem
    have hkeep := (List.mem_filter.mp hmem).2
    simp [hrecu] at hkeep
  · rw [hmain]
    intro r hr
    rw [hbb] at hr
    have hkeep := (List.mem_filter.mp hr).2
    simpa using hkeep

/-- C7 amended witness: deleting user 2 of c7db succeeds, removes the
Borrowed record and leaves the books table untouched. -/
theorem delete_user_books_frame_amended_witness :
    (delete_user 1 2 c7db).1 = DeleteUserResult.deleted ∧
    (delete_user 1 2 c7db).2.books = c7db.books := by
  have h := delete_user_books_frame_amended 1 2 10 c7db
    ⟨2, "u", "u@x", "h", "U", "S", false, false, true⟩
    ⟨1, 2, 10, "d0", none, "Borrowed"⟩
    ⟨10, "B", "A", "C", "P", 0, "New", "Borrowed", false⟩
    (by decide) (by decide) rfl rfl (by decide) rfl rfl (by decide) rfl rfl rfl
  exact ⟨h.1, h.2.1⟩

/-- C1: approving a Pending request for an Available / On Shelves book makes
exactly three writes — the book becomes Borrowed and unavailable, exactly one
new Borrowed record is appended, the request becomes Approved, every other
table untouched — and a failure injected at any one of the three writes rolls
everything back, leaving every table unchanged. -/
theorem approve_borrow_request_three_writes (borrow_date : String) (request_id : Nat)
    (db : DB) (req : BorrowRequestRow) (book : BookRow)
    (hreq : db.borrow_requests.find?
      (fun r => r.id == request_id && r.status == "Pending") = some req)
    (hbook : db.books.find? (fun b => b.id == req.book_id) = some book)
    (hav : isAvailableStatus book.book_status = true) :
    approve_borrow_request none borrow_date request_id db =
      (ApproveResult.approved book.title,
        { db with
          books := db.books.map (fun b =>
            if b.id == req.book_id then
              { b with book_status := "Borrowed", is_available := false }
            else b),
          borrowed_books := db.borrowed_books ++
            [⟨freshId (db.borrowed_books.map (·.id)), req.user_id, req.book_id,
              borrow_date, none, "Borrowed"⟩],
          borrow_requests := db.borrow_requests.map (fun r =>
            if r.id == request_id then { r with status := "Approved" } else r) }) ∧
    (∀ b ∈ (approve_borrow_request none borrow_date request_id db).2.books,
      b.id = req.book_id → b.book_status = "Borrowed" ∧ b.is_available = false) ∧
    (∀ r ∈ (approve_borrow_request none borrow_date request_id db).2.borrow_requests,
      r.id = request_id → r.status = "Approved") ∧
    (∀ k : Fin 3, approve_borrow_request (some k) borrow_date request_id db =
      (ApproveResult.crashed, db)) := by
  have hmain : approve_borrow_request none borrow_date request_id db =
      (ApproveResult.approved book.title,
        { db with
          books := db.books.map (fun b =>
            if b.id == req.book_id then
              { b with book_status := "Borrowed", is_available := false }
            else b),
          borrowed_books := db.borrowed_books ++
            [⟨freshId (db.borrowed_books.map (·.id)), req.user_id, req.book_id,
              borrow_date, none, "Borrowed"⟩],
          borrow_requests := db.borrow_requests.map (fun r =>
            if r.id == request_id then { r with status := "Approved" } else r) }) := by
    simp [approve_borrow_request, hreq, hbook, hav]
  refine ⟨hmain, ?_, ?_, ?_⟩
  · rw [hmain]
    intro b hb hbid
    rcases List.mem_map.mp hb with ⟨a, ha, rfl⟩
    by_cases hid : (a.id == req.book_id) = true
    · rw [if_pos hid]
      exact ⟨rfl, rfl⟩
    · rw [if_neg hid] at hbid ⊢
      exact absurd (beq_iff_eq.mpr hbid) hid
  · rw [hmain]
    intro r hr hrid
    rcases List.mem_map.mp hr with ⟨a, ha, rfl⟩
    by_cases hid : (a.id == request_id) = true
    · rw [if_pos hid]
    · rw [if_neg hid] at hrid ⊢
      exact absurd (beq_iff_eq.mpr hrid) hid
  · intro k
    fin_cases k <;> simp [approve_borrow_request, hreq, hbook, hav]

/-- C1 witness: approving request 7 of c1db succeeds with the three writes,
and the injected failure on the first write leaves c1db unchanged. -/
theorem approve_borrow_request_three_writes_witness :
    (approve_borrow_request none "t" 7 c1db).1 = ApproveResult.approved "B" ∧
    approve_borrow_request (some 0) "t" 7 c1db = (ApproveResult.crashed, c1db) := by
  have h := approve_borrow_request_three_writes "t" 7 c1db ⟨7, 2, 10, "d0", "Pending"⟩
    ⟨10, "B", "A", "C", "P", 0, "New", "Available", true⟩ (by decide) (by decide)
    (by decide)
  exact ⟨by rw [h.1], h.2.2.2 0⟩

end BookHive
